import Mathlib

/-!
# MMSP example drivers: `examples/potts/potts.cpp` and `examples/heisenberg/heisenberg.cpp`

Both files consist of one function, `main`.  It checks the command line, opens
the input file, reads the type line and the dimension of the grid header,
and dispatches on them to the MMSP library: construct a grid from the file,
`update` it, `output` it.

The embedding runs `main` on
* `prog`  : `argv[0]`, the program name;
* `args`  : `argv[1] .. argv[argc-1]`, so that `argc = args.length + 1`
            (and `argv[argc]` is the null pointer);
* `input` : the state of the file named `argv[1]` : `none` when it cannot be
            opened, `some bytes` otherwise;
* `dim0`  : the indeterminate value held by the local `int dim;`, which is
            declared without an initialiser;
and returns the trace of observable events together with the way the process
ends.  Calls into the MMSP library (`Init`, the grid constructor, `update`,
`output`, `Finalize`) are not part of these two files: they are recorded as
events, and the trace follows the control flow of `main`, in which each of
these calls returns to it.
-/

/-! ## Observable behaviour -/

/-- Site type of the grid template a driver instantiates:
`MMSP::grid<D,int>` or `MMSP::grid<D,MMSP::vector<double> >`. -/
inductive SiteType
  | int
  | vectorDouble
  deriving DecidableEq, Repr

/-- Events of one run of `main`, in program order. -/
inductive Event
  /-- Call `Init(argc,argv);` -/
  | Init
  /-- Text written to `std::cout`. -/
  | cout (text : String)
  /-- Text written to `std::cerr` (one event per message line). -/
  | cerr (text : String)
  /-- Statement `std::ifstream input(argv[1]);` and whether the stream opened. -/
  | ifstream (path : String) (ok : Bool)
  /-- Statement `getline(input,type,'\n');` -/
  | getline
  /-- Statement `input>>dim;` -/
  | extract
  /-- Statement `input.close();` -/
  | close
  /-- Construction `MMSP::grid<dim,site> grid(path);` of a grid from the file. -/
  | grid (dim : Nat) (site : SiteType) (path : String)
  /-- Call `update(grid,steps);` on the grid of that dimension and site type. -/
  | update (dim : Nat) (site : SiteType) (steps : Int)
  /-- Call `output(grid,path);` on the grid of that dimension and site type. -/
  | output (dim : Nat) (site : SiteType) (path : String)
  /-- Call `Finalize();` -/
  | Finalize
  deriving DecidableEq, Repr

/-- How a run ends. -/
inductive Ending
  /-- Control reaches the closing brace of `main`: the process ends as by `return 0`. -/
  | returned
  /-- The program called `exit(code)`. -/
  | exited (code : Int)
  /-- The program evaluated `atoi(argv[3])` with `argv[3]` the null pointer;
  nothing is known of the run from there on. -/
  | undefined
  deriving DecidableEq, Repr

/-- Result of a run: what happened, in order, and how it ended. -/
structure Run where
  trace : List Event
  ending : Ending
  deriving DecidableEq, Repr

/-! ## Standard library calls made by `main` -/

/-- Whitespace of the classic locale, skipped by `operator>>` and by `atoi`. -/
def isspace (c : Char) : Bool :=
  c == ' ' || c == '\t' || c == '\n' || c == '\x0b' || c == '\x0c' || c == '\r'

/-- Decimal digit test, `'0' .. '9'`. -/
def isdigit (c : Char) : Bool :=
  decide ('0'.toNat ≤ c.toNat) && decide (c.toNat ≤ '9'.toNat)

/-- Model of `getline(input,type,'\n')` on the bytes of a freshly opened stream: the
characters before the first newline, and the state of the stream afterwards:
`some rest` when the newline was found and removed (the stream is good and
`rest` follows), `none` when the end of the file was reached first (`eofbit`
is set). -/
def getline : List Char → List Char × Option (List Char)
  | [] => ([], none)
  | c :: cs =>
    if c = '\n' then ([], some cs)
    else (c :: (getline cs).1, (getline cs).2)

/-- Value of a run of decimal digits. -/
def decimal (ds : List Char) : Nat :=
  ds.foldl (fun n c => 10 * n + (c.toNat - '0'.toNat)) 0

/-- An optional sign followed by the longest run of decimal digits; `none` when
there is no digit. -/
def signedDecimal (s : List Char) : Option Int :=
  match s with
  | '-' :: t =>
    if t.takeWhile isdigit = [] then none else some (-(decimal (t.takeWhile isdigit) : Int))
  | '+' :: t =>
    if t.takeWhile isdigit = [] then none else some (decimal (t.takeWhile isdigit) : Int)
  | t =>
    if t.takeWhile isdigit = [] then none else some (decimal (t.takeWhile isdigit) : Int)

/-- Largest value of a 32-bit `int`. -/
def INT_MAX : Int := 2147483647

/-- Smallest value of a 32-bit `int`. -/
def INT_MIN : Int := -2147483648

/-- What `input>>dim` does to `dim`. -/
inductive Extracted
  /-- The stream was not good, or held only whitespace up to its end: the
  sentry fails and `dim` is not written. -/
  | unread
  /-- A value was stored in `dim`. -/
  | stored (v : Int)
  deriving DecidableEq, Repr

/-- Model of `input>>dim` for `int dim` (formatted extraction, C++11 and later),
on the stream state left by `getline`: skip whitespace; if the stream is not
good or ends there, `dim` is untouched; otherwise read an optional sign and
decimal digits, and store the value (the nearest `int` bound when it is out
of range), or `0` when no digit could be read. -/
def extractInt : Option (List Char) → Extracted
  | none => .unread
  | some rest =>
    match rest.dropWhile isspace with
    | [] => .unread
    | s =>
      match signedDecimal s with
      | none => .stored 0
      | some v =>
        if v > INT_MAX then .stored INT_MAX
        else if v < INT_MIN then .stored INT_MIN
        else .stored v

/-- Largest value of a 64-bit `long`. -/
def LONG_MAX : Int := 9223372036854775807

/-- Smallest value of a 64-bit `long`. -/
def LONG_MIN : Int := -9223372036854775808

/-- Conversion of a `long` to a 32-bit `int`: the value modulo `2^32`, taken in
the range `INT_MIN .. INT_MAX`. -/
def toInt32 (v : Int) : Int := (v + 2147483648) % 4294967296 - 2147483648

/-- Model of `strtol(s,NULL,10)`: skip whitespace, read an optional sign and
decimal digits; `0` when there is no digit, and the nearest bound of `long`
when the value is out of its range. -/
def strtol (s : List Char) : Int :=
  match signedDecimal (s.dropWhile isspace) with
  | none => 0
  | some v =>
    if v > LONG_MAX then LONG_MAX
    else if v < LONG_MIN then LONG_MIN
    else v

/-- Model of `atoi` on a string, which returns an `int`: the C library computes
it as `(int) strtol(s,NULL,10)`.  In the range of `int` this is the decimal
value read; outside it (where the C standard leaves the result undefined) it
is that value, clamped to `long`, reduced to 32 bits. -/
def atoi (s : String) : Int := toInt32 (strtol s.toList)

/-! ## The two drivers -/

/-- The three statements both drivers run in a dimension branch,
`MMSP::grid<D,T> grid(argv[1]); update(grid,atoi(argv[3])); output(grid,argv[2]);`,
as the events they produce and, if the branch does not run to its end, how
the run ends.  `argv3` is `none` when `argv[3]` is the null pointer. -/
def simulate (D : Nat) (T : SiteType) (argv1 argv2 : String) (argv3 : Option String) :
    List Event × Option Ending :=
  match argv3 with
  | some timesteps =>
    ([.grid D T argv1, .update D T (atoi timesteps), .output D T argv2], none)
  | none => ([.grid D T argv1], some .undefined)

namespace Potts

/-- Model of `main` of `examples/potts/potts.cpp`. -/
def main (prog : String) (args : List String) (input : Option (List Char)) (dim0 : Int) : Run :=
  match args with
  -- command line error check: `argc<3`
  | [] => ⟨[.Init, .cout ("Usage: " ++ prog ++ " inputfile outputfile timesteps\n")], .exited (-1)⟩
  | [_] => ⟨[.Init, .cout ("Usage: " ++ prog ++ " inputfile outputfile timesteps\n")], .exited (-1)⟩
  | argv1 :: argv2 :: rest =>
    -- file open error check
    match input with
    | none =>
      ⟨[.Init, .ifstream argv1 false,
        .cerr ("File input error: could not open " ++ argv1 ++ ".\n")], .exited (-1)⟩
    | some bytes =>
      -- read grid data type
      let type := (getline bytes).1
      -- grid type error check
      if type.take 4 ≠ "grid".toList then
        ⟨[.Init, .ifstream argv1 true, .getline,
          .cerr "File input error: file does not contain grid data.\n"], .exited (-1)⟩
      else
        -- read grid dimension
        let dim : Int :=
          match extractInt (getline bytes).2 with
          | .unread => dim0
          | .stored v => v
        let pre : List Event := [.Init, .ifstream argv1 true, .getline, .extract, .close]
        -- set grain growth type
        let potts : Bool :=
          decide (type = "grid:int".toList) || decide (type = "grid:scalar:int".toList)
        -- Potts model
        if potts then
          let b2 := if dim = 2 then simulate 2 .int argv1 argv2 rest.head? else ([], none)
          match b2.2 with
          | some e => ⟨pre ++ b2.1, e⟩
          | none =>
            let b3 := if dim = 3 then simulate 3 .int argv1 argv2 rest.head? else ([], none)
            match b3.2 with
            | some e => ⟨pre ++ b2.1 ++ b3.1, e⟩
            | none => ⟨pre ++ b2.1 ++ b3.1 ++ [.Finalize], .returned⟩
        -- unsupported grid type error
        else
          ⟨pre ++ [.cerr "File input error: unsupported grid data type.\n"], .exited (-1)⟩

end Potts

namespace Heisenberg

/-- Model of `main` of `examples/heisenberg/heisenberg.cpp`. -/
def main (prog : String) (args : List String) (input : Option (List Char)) (dim0 : Int) : Run :=
  match args with
  -- command line error check: `argc<3`
  | [] => ⟨[.Init, .cout ("Usage: " ++ prog ++ " inputfile outputfile timesteps\n")], .exited (-1)⟩
  | [_] => ⟨[.Init, .cout ("Usage: " ++ prog ++ " inputfile outputfile timesteps\n")], .exited (-1)⟩
  | argv1 :: argv2 :: rest =>
    -- file open error check
    match input with
    | none =>
      ⟨[.Init, .ifstream argv1 false,
        .cerr ("File input error: could not open " ++ argv1 ++ ".\n")], .exited (-1)⟩
    | some bytes =>
      -- read grid data type
      let type := (getline bytes).1
      -- grid type error check
      if type.take 4 ≠ "grid".toList then
        ⟨[.Init, .ifstream argv1 true, .getline,
          .cerr "File input error: file does not contain grid data.\n"], .exited (-1)⟩
      else
        -- read grid dimension
        let dim : Int :=
          match extractInt (getline bytes).2 with
          | .unread => dim0
          | .stored v => v
        let pre : List Event := [.Init, .ifstream argv1 true, .getline, .extract, .close]
        -- set grain growth type
        let heisenberg : Bool := decide (type = "grid:vector:double".toList)
        -- Heisenberg model
        if heisenberg then
          let b2 :=
            if dim = 2 then simulate 2 .vectorDouble argv1 argv2 rest.head? else ([], none)
          match b2.2 with
          | some e => ⟨pre ++ b2.1, e⟩
          | none =>
            let b3 :=
              if dim = 3 then simulate 3 .vectorDouble argv1 argv2 rest.head? else ([], none)
            match b3.2 with
            | some e => ⟨pre ++ b2.1 ++ b3.1, e⟩
            | none => ⟨pre ++ b2.1 ++ b3.1 ++ [.Finalize], .returned⟩
        -- unsupported grid type error
        else
          ⟨pre ++ [.cerr "File input error: unsupported grid data type.\n"], .exited (-1)⟩

end Heisenberg

/-! ## Vocabulary of the statements -/

/-- Texts written to standard output, in order. -/
def Run.stdout (r : Run) : List String :=
  r.trace.filterMap fun e => match e with
    | .cout t => some t
    | _ => none

/-- Texts written to standard error, in order. -/
def Run.stderr (r : Run) : List String :=
  r.trace.filterMap fun e => match e with
    | .cerr t => some t
    | _ => none

/-- Exit status seen by the parent process (the low eight bits of the exit
code), when the run ends in a defined way. -/
def Run.status (r : Run) : Option Nat :=
  match r.ending with
  | .returned => some 0
  | .exited code => some (code % 256).toNat
  | .undefined => none

/-- The run ends with a nonzero exit status. -/
def Run.failed (r : Run) : Prop := ∃ n, r.status = some n ∧ n ≠ 0

/-- Grid construction, `update` and `output` events. -/
def Event.isGridOp : Event → Bool
  | .grid _ _ _ => true
  | .update _ _ _ => true
  | .output _ _ _ => true
  | _ => false

/-- The grid operations of a run, in order. -/
def Run.gridOps (r : Run) : List Event := r.trace.filter Event.isGridOp

/-- The usage message. -/
def msgUsage (prog : String) : String := "Usage: " ++ prog ++ " inputfile outputfile timesteps\n"

/-- The message for an input file that cannot be opened. -/
def msgOpen (path : String) : String := "File input error: could not open " ++ path ++ ".\n"

/-- The message for a first line that does not start with `grid`. -/
def msgNotGrid : String := "File input error: file does not contain grid data.\n"

/-- The message for a grid type the driver does not handle. -/
def msgUnsupported : String := "File input error: unsupported grid data type.\n"

/-- First line of a file: what `getline` stores in `type`. -/
def firstLine (bytes : List Char) : List Char := (getline bytes).1

/-- The test `type.substr(0,4)=="grid"`. -/
def startsWithGrid (type : List Char) : Prop := type.take 4 = "grid".toList

instance (type : List Char) : Decidable (startsWithGrid type) := by
  unfold startsWithGrid; infer_instance

/-- What `input>>dim` reads from a file, after its first line. -/
def dimension (bytes : List Char) : Extracted := extractInt (getline bytes).2

/-- Value held by `dim` when `main` dispatches on it: the value read from the
file, or the indeterminate initial value when nothing was stored. -/
def dimValue (bytes : List Char) (dim0 : Int) : Int :=
  match dimension bytes with
  | .unread => dim0
  | .stored v => v

/-- The two example programs. -/
inductive Driver
  | potts
  | heisenberg
  deriving DecidableEq, Repr

/-- The `main` of a driver. -/
def Driver.run : Driver → String → List String → Option (List Char) → Int → Run
  | .potts => Potts.main
  | .heisenberg => Heisenberg.main

/-- The type lines a driver takes as its own model. -/
def Driver.recognises : Driver → List Char → Prop
  | .potts, type => type = "grid:scalar:int".toList ∨ type = "grid:int".toList
  | .heisenberg, type => type = "grid:vector:double".toList

instance (d : Driver) (type : List Char) : Decidable (d.recognises type) := by
  cases d <;> unfold Driver.recognises <;> infer_instance

/-- The site type of the grids a driver constructs. -/
def Driver.site : Driver → SiteType
  | .potts => .int
  | .heisenberg => .vectorDouble

/-- Events of a run up to and including `input.close()`. -/
def header (argv1 : String) : List Event :=
  [.Init, .ifstream argv1 true, .getline, .extract, .close]

/-! ## The branches of `main` -/

theorem recognises_startsWithGrid (d : Driver) (type : List Char) (h : d.recognises type) :
    startsWithGrid type := by
  cases d
  · rcases h with h | h <;> subst h <;> decide
  · have h : type = _ := h
    subst h; decide

theorem run_usage (d : Driver) (prog : String) (args : List String) (input : Option (List Char))
    (dim0 : Int) (h : args.length < 2) :
    d.run prog args input dim0 = ⟨[.Init, .cout (msgUsage prog)], .exited (-1)⟩ := by
  match args, h with
  | [], _ => cases d <;> rfl
  | [_], _ => cases d <;> rfl
  | _ :: _ :: _, h => exact absurd h (by simp)

theorem run_open_failed (d : Driver) (prog argv1 argv2 : String) (rest : List String) (dim0 : Int) :
    d.run prog (argv1 :: argv2 :: rest) none dim0
      = ⟨[.Init, .ifstream argv1 false, .cerr (msgOpen argv1)], .exited (-1)⟩ := by
  cases d <;> rfl

theorem run_not_grid (d : Driver) (prog argv1 argv2 : String) (rest : List String)
    (bytes : List Char) (dim0 : Int) (h : ¬ startsWithGrid (firstLine bytes)) :
    d.run prog (argv1 :: argv2 :: rest) (some bytes) dim0
      = ⟨[.Init, .ifstream argv1 true, .getline, .cerr msgNotGrid], .exited (-1)⟩ := by
  unfold startsWithGrid firstLine at h
  cases d <;> simp only [Driver.run, Potts.main, Heisenberg.main] <;> rw [if_pos h] <;> rfl

theorem run_unsupported (d : Driver) (prog argv1 argv2 : String) (rest : List String)
    (bytes : List Char) (dim0 : Int) (hg : startsWithGrid (firstLine bytes))
    (hr : ¬ d.recognises (firstLine bytes)) :
    d.run prog (argv1 :: argv2 :: rest) (some bytes) dim0
      = ⟨header argv1 ++ [.cerr msgUnsupported], .exited (-1)⟩ := by
  unfold startsWithGrid firstLine at hg
  unfold firstLine at hr
  cases d
  · have hp : (decide ((getline bytes).1 = "grid:int".toList)
        || decide ((getline bytes).1 = "grid:scalar:int".toList)) = false := by
      simp only [Driver.recognises, not_or] at hr
      simp only [Bool.or_eq_false_iff, decide_eq_false_iff_not]
      exact ⟨hr.2, hr.1⟩
    simp only [Driver.run, Potts.main, hg, hp, ne_eq, not_true_eq_false, ↓reduceIte,
      Bool.false_eq_true]
    rfl
  · have hp : decide ((getline bytes).1 = "grid:vector:double".toList) = false := by
      simp only [Driver.recognises] at hr
      simp only [decide_eq_false_iff_not]
      exact hr
    simp only [Driver.run, Heisenberg.main, hg, hp, ne_eq, not_true_eq_false, ↓reduceIte,
      Bool.false_eq_true]
    rfl

theorem run_recognised (d : Driver) (prog argv1 argv2 : String) (rest : List String)
    (bytes : List Char) (dim0 : Int) (hr : d.recognises (firstLine bytes)) :
    d.run prog (argv1 :: argv2 :: rest) (some bytes) dim0
      = if dimValue bytes dim0 = 2 then
          match rest.head? with
          | some argv3 =>
            ⟨header argv1 ++ [.grid 2 d.site argv1, .update 2 d.site (atoi argv3),
              .output 2 d.site argv2, .Finalize], .returned⟩
          | none => ⟨header argv1 ++ [.grid 2 d.site argv1], .undefined⟩
        else if dimValue bytes dim0 = 3 then
          match rest.head? with
          | some argv3 =>
            ⟨header argv1 ++ [.grid 3 d.site argv1, .update 3 d.site (atoi argv3),
              .output 3 d.site argv2, .Finalize], .returned⟩
          | none => ⟨header argv1 ++ [.grid 3 d.site argv1], .undefined⟩
        else ⟨header argv1 ++ [.Finalize], .returned⟩ := by
  have hg := recognises_startsWithGrid d _ hr
  unfold startsWithGrid firstLine at hg
  unfold firstLine at hr
  cases d
  · have hp : (decide ((getline bytes).1 = "grid:int".toList)
        || decide ((getline bytes).1 = "grid:scalar:int".toList)) = true := by
      simp only [Driver.recognises] at hr
      simp only [Bool.or_eq_true, decide_eq_true_eq]
      exact hr.symm
    simp only [Driver.run, Potts.main, hg, hp, ne_eq, not_true_eq_false, ↓reduceIte]
    simp only [dimValue, dimension, Driver.site, header]
    by_cases h2 : (match extractInt (getline bytes).2 with
        | Extracted.unread => dim0
        | Extracted.stored v => v) = 2
    · cases hh : rest.head? <;> simp [h2, hh, simulate]
    · by_cases h3 : (match extractInt (getline bytes).2 with
          | Extracted.unread => dim0
          | Extracted.stored v => v) = 3
      · cases hh : rest.head? <;> simp [h2, h3, hh, simulate]
      · simp [h2, h3]
  · have hp : decide ((getline bytes).1 = "grid:vector:double".toList) = true := by
      simp only [Driver.recognises] at hr
      simp only [decide_eq_true_eq]
      exact hr
    simp only [Driver.run, Heisenberg.main, hg, hp, ne_eq, not_true_eq_false, ↓reduceIte]
    simp only [dimValue, dimension, Driver.site, header]
    by_cases h2 : (match extractInt (getline bytes).2 with
        | Extracted.unread => dim0
        | Extracted.stored v => v) = 2
    · cases hh : rest.head? <;> simp [h2, hh, simulate]
    · by_cases h3 : (match extractInt (getline bytes).2 with
          | Extracted.unread => dim0
          | Extracted.stored v => v) = 3
      · cases hh : rest.head? <;> simp [h2, h3, hh, simulate]
      · simp [h2, h3]

/-- A run on a recognised type line with a stored dimension other than 2 and 3
falls through both dimension tests. -/
theorem run_other_dimension (d : Driver) (prog argv1 argv2 : String)
    (rest : List String) (bytes : List Char) (dim0 : Int) (v : Int)
    (hr : d.recognises (firstLine bytes)) (hd : dimension bytes = .stored v)
    (h2 : v ≠ 2) (h3 : v ≠ 3) :
    d.run prog (argv1 :: argv2 :: rest) (some bytes) dim0
        = ⟨header argv1 ++ [.Finalize], .returned⟩ := by
  have hdv : dimValue bytes dim0 = v := by simp [dimValue, hd]
  rw [run_recognised d prog argv1 argv2 rest bytes dim0 hr, hdv]
  simp [h2, h3]

theorem msgOpen_ne_msgUnsupported (path : String) : msgOpen path ≠ msgUnsupported := by
  intro h
  have h2 := congrArg String.data h
  simp [msgOpen, msgUnsupported] at h2

/-- Every run of a driver has one of seven shapes: the four error exits, the
silent return, the full simulation, and the run cut after the constructor
when `argv[3]` is missing. -/
theorem run_shapes (d : Driver) (prog : String) (args : List String)
    (input : Option (List Char)) (dim0 : Int) :
    d.run prog args input dim0 = ⟨[.Init, .cout (msgUsage prog)], .exited (-1)⟩
    ∨ (∃ a1, d.run prog args input dim0
        = ⟨[.Init, .ifstream a1 false, .cerr (msgOpen a1)], .exited (-1)⟩)
    ∨ (∃ a1, d.run prog args input dim0
        = ⟨[.Init, .ifstream a1 true, .getline, .cerr msgNotGrid], .exited (-1)⟩)
    ∨ (∃ a1, d.run prog args input dim0
        = ⟨header a1 ++ [.cerr msgUnsupported], .exited (-1)⟩)
    ∨ (∃ a1, d.run prog args input dim0 = ⟨header a1 ++ [.Finalize], .returned⟩)
    ∨ (∃ a1 a2 a3 n, d.run prog args input dim0
        = ⟨header a1 ++ [.grid n d.site a1, .update n d.site (atoi a3),
            .output n d.site a2, .Finalize], .returned⟩)
    ∨ (∃ a1 n, d.run prog args input dim0
        = ⟨header a1 ++ [.grid n d.site a1], .undefined⟩) := by
  match args with
  | [] => exact Or.inl (run_usage d prog [] input dim0 (by simp))
  | [a] => exact Or.inl (run_usage d prog [a] input dim0 (by simp))
  | a1 :: a2 :: rest =>
    cases input with
    | none => exact Or.inr (Or.inl ⟨a1, run_open_failed d prog a1 a2 rest dim0⟩)
    | some bytes =>
      by_cases hg : startsWithGrid (firstLine bytes)
      · by_cases hr : d.recognises (firstLine bytes)
        · rw [run_recognised d prog a1 a2 rest bytes dim0 hr]
          split_ifs
          · cases hh : rest.head? with
            | none => exact Or.inr (Or.inr (Or.inr (Or.inr (Or.inr (Or.inr ⟨a1, 2, rfl⟩)))))
            | some a3 =>
              exact Or.inr (Or.inr (Or.inr (Or.inr (Or.inr (Or.inl ⟨a1, a2, a3, 2, rfl⟩)))))
          · cases hh : rest.head? with
            | none => exact Or.inr (Or.inr (Or.inr (Or.inr (Or.inr (Or.inr ⟨a1, 3, rfl⟩)))))
            | some a3 =>
              exact Or.inr (Or.inr (Or.inr (Or.inr (Or.inr (Or.inl ⟨a1, a2, a3, 3, rfl⟩)))))
          · exact Or.inr (Or.inr (Or.inr (Or.inr (Or.inl ⟨a1, rfl⟩))))
        · exact Or.inr (Or.inr (Or.inr (Or.inl
            ⟨a1, run_unsupported d prog a1 a2 rest bytes dim0 hg hr⟩)))
      · exact Or.inr (Or.inr (Or.inl ⟨a1, run_not_grid d prog a1 a2 rest bytes dim0 hg⟩))

/-- A run on a recognised type line writes no message and does not call `exit`. -/
theorem run_recognised_quiet (d : Driver) (prog argv1 argv2 : String) (rest : List String)
    (bytes : List Char) (dim0 : Int) (hr : d.recognises (firstLine bytes)) :
    (d.run prog (argv1 :: argv2 :: rest) (some bytes) dim0).stderr = []
    ∧ (d.run prog (argv1 :: argv2 :: rest) (some bytes) dim0).stdout = []
    ∧ ∀ code, (d.run prog (argv1 :: argv2 :: rest) (some bytes) dim0).ending ≠ .exited code := by
  rw [run_recognised d prog argv1 argv2 rest bytes dim0 hr]
  split_ifs <;> cases rest.head? <;> simp [Run.stderr, Run.stdout, header]

/-- A run with a grid operation in its trace is a run on an opened file whose
first line the driver recognises. -/
theorem gridOps_recognised (d : Driver) (prog : String) (args : List String)
    (input : Option (List Char)) (dim0 : Int)
    (h : (d.run prog args input dim0).gridOps ≠ []) :
    ∃ bytes, input = some bytes ∧ d.recognises (firstLine bytes) := by
  match args with
  | [] => rw [run_usage d prog [] input dim0 (by simp)] at h; simp [Run.gridOps, Event.isGridOp] at h
  | [a] => rw [run_usage d prog [a] input dim0 (by simp)] at h; simp [Run.gridOps, Event.isGridOp] at h
  | a1 :: a2 :: rest =>
    cases input with
    | none => rw [run_open_failed] at h; simp [Run.gridOps, Event.isGridOp] at h
    | some bytes =>
      refine ⟨bytes, rfl, ?_⟩
      by_contra hr
      by_cases hg : startsWithGrid (firstLine bytes)
      · rw [run_unsupported d prog a1 a2 rest bytes dim0 hg hr] at h
        simp [Run.gridOps, Event.isGridOp, header] at h
      · rw [run_not_grid d prog a1 a2 rest bytes dim0 hg] at h
        simp [Run.gridOps, Event.isGridOp] at h

/-! ## Header discrimination -/

/-- C1. Header discrimination, format error: for each driver, every command
line that passes the argument check and every input file that opens, the run
writes the message "file does not contain grid data" to standard error and
ends with a nonzero exit status if and only if the first line of the file
does not start with the four characters `grid`.  Such a run is exactly
`Init`, the open, the `getline`, the message and `exit(-1)`: exit status 255
and no grid operation.  A first line shorter than four characters (the empty
line too) is such a line, and any file that begins `notgrid\n2\n4 4\n` is
rejected this way with no grid constructed. -/
theorem header_not_grid_rejected (d : Driver) (prog argv1 argv2 : String)
    (rest : List String) (bytes : List Char) (dim0 : Int) :
    ((msgNotGrid ∈ (d.run prog (argv1 :: argv2 :: rest) (some bytes) dim0).stderr
        ∧ (d.run prog (argv1 :: argv2 :: rest) (some bytes) dim0).failed)
      ↔ ¬ startsWithGrid (firstLine bytes))
    ∧ (¬ startsWithGrid (firstLine bytes) →
        d.run prog (argv1 :: argv2 :: rest) (some bytes) dim0
            = ⟨[.Init, .ifstream argv1 true, .getline, .cerr msgNotGrid], .exited (-1)⟩
          ∧ (d.run prog (argv1 :: argv2 :: rest) (some bytes) dim0).stderr = [msgNotGrid]
          ∧ (d.run prog (argv1 :: argv2 :: rest) (some bytes) dim0).status = some 255
          ∧ (d.run prog (argv1 :: argv2 :: rest) (some bytes) dim0).gridOps = [])
    ∧ ((firstLine bytes).length < 4 → ¬ startsWithGrid (firstLine bytes))
    ∧ (∀ tail : List Char,
        d.run prog (argv1 :: argv2 :: rest) (some ("notgrid\n2\n4 4\n".toList ++ tail)) dim0
            = ⟨[.Init, .ifstream argv1 true, .getline, .cerr msgNotGrid], .exited (-1)⟩
          ∧ (d.run prog (argv1 :: argv2 :: rest)
              (some ("notgrid\n2\n4 4\n".toList ++ tail)) dim0).gridOps = []) := by
  have key : ¬ startsWithGrid (firstLine bytes) →
      d.run prog (argv1 :: argv2 :: rest) (some bytes) dim0
          = ⟨[.Init, .ifstream argv1 true, .getline, .cerr msgNotGrid], .exited (-1)⟩ :=
    run_not_grid d prog argv1 argv2 rest bytes dim0
  refine ⟨⟨?_, ?_⟩, ?_, ?_, ?_⟩
  · rintro ⟨hmem, -⟩ hg
    by_cases hr : d.recognises (firstLine bytes)
    · rw [(run_recognised_quiet d prog argv1 argv2 rest bytes dim0 hr).1] at hmem
      simp at hmem
    · rw [run_unsupported d prog argv1 argv2 rest bytes dim0 hg hr] at hmem
      simp [Run.stderr, header] at hmem
      exact absurd hmem (by decide)
  · intro hg
    rw [key hg]
    exact ⟨by simp [Run.stderr], 255, rfl, by decide⟩
  · intro hg
    rw [key hg]
    exact ⟨rfl, by simp [Run.stderr], rfl, by simp [Run.gridOps, Event.isGridOp]⟩
  · intro hlen hg
    unfold startsWithGrid at hg
    have := congrArg List.length hg
    simp [List.length_take] at this
    omega
  · intro tail
    have hg : ¬ startsWithGrid (firstLine ("notgrid\n2\n4 4\n".toList ++ tail)) := by
      simp [startsWithGrid, firstLine, getline]
    rw [run_not_grid d prog argv1 argv2 rest _ dim0 hg]
    exact ⟨rfl, by simp [Run.gridOps, Event.isGridOp]⟩

/-- C1, at a concrete input: the Potts driver on the file `notgrid\n2\n4 4\n`. -/
theorem header_not_grid_rejected_witness :
    ¬ startsWithGrid (firstLine "notgrid\n2\n4 4\n".toList)
    ∧ Potts.main "potts" ["in.dat", "out.dat", "10"] (some "notgrid\n2\n4 4\n".toList) 0
        = ⟨[.Init, .ifstream "in.dat" true, .getline, .cerr msgNotGrid], .exited (-1)⟩ :=
  ⟨by decide,
    ((header_not_grid_rejected .potts "potts" "in.dat" "out.dat" ["10"]
      "notgrid\n2\n4 4\n".toList 0).2.1 (by decide)).1⟩

/-- C2. Header discrimination, unsupported type: for each driver, every
command line that passes the argument check and every input file that opens,
if the first line starts with `grid` but is not a type line of the driver
(Potts: `grid:scalar:int` or `grid:int`; Heisenberg: `grid:vector:double`),
then, whatever follows the first line and whatever `dim` holds, the run writes
the message "unsupported grid data type" to standard error and ends with
`exit(-1)`, exit status 255, with no grid operation.  The message is written
for no other input: a run that writes it had at least two arguments, an input
file that opened, and a first line that starts with `grid` and is not a type
line of the driver.  The comparison is on the whole line: a type line of the
driver followed by any further character is rejected in this way. -/
theorem unsupported_type_rejected (d : Driver) (prog argv1 argv2 : String)
    (rest : List String) (bytes : List Char) (dim0 : Int) :
    (startsWithGrid (firstLine bytes) → ¬ d.recognises (firstLine bytes) →
        d.run prog (argv1 :: argv2 :: rest) (some bytes) dim0
            = ⟨[.Init, .ifstream argv1 true, .getline, .extract, .close,
                .cerr msgUnsupported], .exited (-1)⟩
          ∧ (d.run prog (argv1 :: argv2 :: rest) (some bytes) dim0).stderr = [msgUnsupported]
          ∧ (d.run prog (argv1 :: argv2 :: rest) (some bytes) dim0).status = some 255
          ∧ (d.run prog (argv1 :: argv2 :: rest) (some bytes) dim0).failed
          ∧ (d.run prog (argv1 :: argv2 :: rest) (some bytes) dim0).gridOps = [])
    ∧ (∀ (args : List String) (input : Option (List Char)),
        msgUnsupported ∈ (d.run prog args input dim0).stderr →
          2 ≤ args.length ∧ ∃ b, input = some b ∧ startsWithGrid (firstLine b)
            ∧ ¬ d.recognises (firstLine b))
    ∧ (∀ (tag : List Char) (ch : Char) (tail : List Char), d.recognises tag → ch ≠ '\n' →
        d.run prog (argv1 :: argv2 :: rest) (some (tag ++ ch :: tail)) dim0
          = ⟨[.Init, .ifstream argv1 true, .getline, .extract, .close,
              .cerr msgUnsupported], .exited (-1)⟩) := by
  refine ⟨?_, ?_, ?_⟩
  · intro hg hr
    rw [run_unsupported d prog argv1 argv2 rest bytes dim0 hg hr]
    exact ⟨rfl, by simp [Run.stderr, header], rfl, ⟨255, rfl, by decide⟩,
      by simp [Run.gridOps, Event.isGridOp, header]⟩
  · intro args input hmem
    match args with
    | [] =>
      rw [run_usage d prog [] input dim0 (by simp)] at hmem
      simp [Run.stderr] at hmem
    | [a] =>
      rw [run_usage d prog [a] input dim0 (by simp)] at hmem
      simp [Run.stderr] at hmem
    | a1 :: a2 :: more =>
      cases input with
      | none =>
        rw [run_open_failed] at hmem
        simp [Run.stderr] at hmem
        exact absurd hmem.symm (msgOpen_ne_msgUnsupported a1)
      | some b =>
        refine ⟨by simp, b, rfl, ?_⟩
        by_cases hg : startsWithGrid (firstLine b)
        · refine ⟨hg, fun hr => ?_⟩
          rw [(run_recognised_quiet d prog a1 a2 more b dim0 hr).1] at hmem
          simp at hmem
        · rw [run_not_grid d prog a1 a2 more b dim0 hg] at hmem
          simp [Run.stderr] at hmem
          exact absurd hmem (by decide)
  · intro tag ch tail htag hch
    have hfl : firstLine (tag ++ ch :: tail) = tag ++ ch :: firstLine tail := by
      cases d
      · rcases htag with h | h <;> subst h <;> simp [firstLine, getline, hch]
      · have h : tag = _ := htag
        subst h; simp [firstLine, getline, hch]
    have hg : startsWithGrid (firstLine (tag ++ ch :: tail)) := by
      rw [hfl]
      cases d
      · rcases htag with h | h <;> subst h <;> simp [startsWithGrid]
      · have h : tag = _ := htag
        subst h; simp [startsWithGrid]
    have hr : ¬ d.recognises (firstLine (tag ++ ch :: tail)) := by
      rw [hfl]
      cases d
      · rcases htag with h | h <;> subst h <;> simp [Driver.recognises]
      · have h : tag = _ := htag
        subst h; simp [Driver.recognises]
    rw [run_unsupported d prog argv1 argv2 rest _ dim0 hg hr]
    rfl

/-- C2, at a concrete input: the Potts driver on a file whose first line is
`grid:int` followed by one more character. -/
theorem unsupported_type_rejected_witness :
    (startsWithGrid (firstLine "grid:int \n2\n4 4\n".toList)
      ∧ ¬ Driver.potts.recognises (firstLine "grid:int \n2\n4 4\n".toList))
    ∧ (Potts.main "potts" ["in.dat", "out.dat", "10"] (some "grid:int \n2\n4 4\n".toList) 0).stderr
        = [msgUnsupported] :=
  ⟨by decide,
    ((unsupported_type_rejected .potts "potts" "in.dat" "out.dat" ["10"]
      "grid:int \n2\n4 4\n".toList 0).1 (by decide) (by decide)).2.1⟩

/-! ## The supported path -/

/-- C4, where the code departs from it: the dimension dispatch is two tests,
`if (dim==2)` and `if (dim==3)`, with no branch for any other value.  The
Potts driver on a one-dimensional `grid:int` file, whose dimension line parses
to 1, writes nothing to standard error and ends with exit status 0, and so
does not fail; the run is `Init`, the header reads, `Finalize` and the return
from `main`, with no grid operation, so the output file is not written.  The
same run results for the dimensions 0 and -1, and for the Heisenberg driver on
a `grid:vector:double` file of dimension 4. -/
theorem unsupported_dimension_not_reported :
    Driver.potts.recognises (firstLine "grid:int\n1\n16\n".toList)
    ∧ dimension "grid:int\n1\n16\n".toList = .stored 1
    ∧ (Potts.main "potts" ["in.dat", "out.dat", "10"] (some "grid:int\n1\n16\n".toList) 0).stderr
        = []
    ∧ (Potts.main "potts" ["in.dat", "out.dat", "10"] (some "grid:int\n1\n16\n".toList) 0).status
        = some 0
    ∧ ¬ (Potts.main "potts" ["in.dat", "out.dat", "10"]
          (some "grid:int\n1\n16\n".toList) 0).failed
    ∧ Potts.main "potts" ["in.dat", "out.dat", "10"] (some "grid:int\n1\n16\n".toList) 0
        = ⟨[.Init, .ifstream "in.dat" true, .getline, .extract, .close, .Finalize], .returned⟩
    ∧ dimension "grid:scalar:int\n0\n".toList = .stored 0
    ∧ Potts.main "potts" ["in.dat", "out.dat", "10"] (some "grid:scalar:int\n0\n".toList) 0
        = ⟨[.Init, .ifstream "in.dat" true, .getline, .extract, .close, .Finalize], .returned⟩
    ∧ dimension "grid:int\n-1\n".toList = .stored (-1)
    ∧ Potts.main "potts" ["in.dat", "out.dat", "10"] (some "grid:int\n-1\n".toList) 0
        = ⟨[.Init, .ifstream "in.dat" true, .getline, .extract, .close, .Finalize], .returned⟩
    ∧ Driver.heisenberg.recognises (firstLine "grid:vector:double\n4\n2 2 2 2\n".toList)
    ∧ dimension "grid:vector:double\n4\n2 2 2 2\n".toList = .stored 4
    ∧ Heisenberg.main "heisenberg" ["in.dat", "out.dat", "10"]
          (some "grid:vector:double\n4\n2 2 2 2\n".toList) 0
        = ⟨[.Init, .ifstream "in.dat" true, .getline, .extract, .close, .Finalize],
            .returned⟩ := by
  refine ⟨by decide, by decide, by decide, by decide, ?_, by decide, by decide, by decide,
    by decide, by decide, by decide, by decide, by decide⟩
  rintro ⟨n, hn, hne⟩
  have h0 : (Potts.main "potts" ["in.dat", "out.dat", "10"]
      (some "grid:int\n1\n16\n".toList) 0).status = some 0 := by decide
  rw [h0] at hn
  exact hne (Option.some.inj hn).symm

/-! ## Command line and file errors -/

/-- C5, where the code departs from it: with `inputfile` and `outputfile` but
no `timesteps` (`argc` is 3) the check `argc<3` passes.  Neither driver prints
the usage message, both open the input file, and on a two-dimensional
`grid:int` file the Potts driver constructs the grid and then evaluates
`atoi(argv[3])` on the null pointer. -/
theorem usage_check_admits_missing_timesteps :
    (∀ (d : Driver) (prog argv1 argv2 : String) (input : Option (List Char)) (dim0 : Int),
        (d.run prog [argv1, argv2] input dim0).stdout = []
        ∧ Event.ifstream argv1 input.isSome ∈ (d.run prog [argv1, argv2] input dim0).trace)
    ∧ Potts.main "potts" ["in.dat", "out.dat"] (some "grid:int\n2\n4 4\n".toList) 0
        = ⟨[.Init, .ifstream "in.dat" true, .getline, .extract, .close,
            .grid 2 .int "in.dat"], .undefined⟩ := by
  refine ⟨?_, by decide⟩
  intro d prog argv1 argv2 input dim0
  cases input with
  | none =>
    rw [run_open_failed]
    simp [Run.stdout]
  | some bytes =>
    by_cases hg : startsWithGrid (firstLine bytes)
    · by_cases hr : d.recognises (firstLine bytes)
      · rw [run_recognised d prog argv1 argv2 [] bytes dim0 hr]
        split_ifs <;> simp [Run.stdout, header]
      · rw [run_unsupported d prog argv1 argv2 [] bytes dim0 hg hr]
        simp [Run.stdout, header]
    · rw [run_not_grid d prog argv1 argv2 [] bytes dim0 hg]
      simp [Run.stdout]

/-- C6. Unreadable input file: for each driver and every command line that
passes the argument check, if the input file cannot be opened the run is
exactly `Init`, the failed open, the message
"File input error: could not open <inputfile>." on standard error and
`exit(-1)`: the exit status is 255, nothing is written to standard output, no
header is read, and there is no grid operation (so no grid is constructed and
the output file is not written). -/
theorem unreadable_input_rejected (d : Driver) (prog argv1 argv2 : String)
    (rest : List String) (dim0 : Int) :
    d.run prog (argv1 :: argv2 :: rest) none dim0
        = ⟨[.Init, .ifstream argv1 false,
            .cerr ("File input error: could not open " ++ argv1 ++ ".\n")], .exited (-1)⟩
    ∧ (d.run prog (argv1 :: argv2 :: rest) none dim0).stderr
        = ["File input error: could not open " ++ argv1 ++ ".\n"]
    ∧ (d.run prog (argv1 :: argv2 :: rest) none dim0).stdout = []
    ∧ (d.run prog (argv1 :: argv2 :: rest) none dim0).status = some 255
    ∧ (d.run prog (argv1 :: argv2 :: rest) none dim0).failed
    ∧ Event.getline ∉ (d.run prog (argv1 :: argv2 :: rest) none dim0).trace
    ∧ Event.extract ∉ (d.run prog (argv1 :: argv2 :: rest) none dim0).trace
    ∧ (d.run prog (argv1 :: argv2 :: rest) none dim0).gridOps = [] := by
  rw [run_open_failed]
  exact ⟨rfl, by simp [Run.stderr, msgOpen], by simp [Run.stdout], rfl, ⟨255, rfl, by decide⟩,
    by simp, by simp, by simp [Run.gridOps, Event.isGridOp]⟩

/-- C7, where the code departs from it: on a file that ends after the line
`grid:int`, `input>>dim` stores nothing, and the Potts driver dispatches on
whatever `dim` held: it writes no message and does not fail for any such
value, it simulates a two-dimensional grid when the value is 2, and it returns
with status 0 and no grid operation when the value is 0.  On a file whose
second line is `abc`, `dim` is set to 0 and the run is the same silent
return. -/
theorem unread_dimension_dispatched :
    dimension "grid:int\n".toList = .unread
    ∧ (∀ dim0 : Int,
        (Potts.main "potts" ["in.dat", "out.dat", "10"] (some "grid:int\n".toList) dim0).stderr
          = []
        ∧ ¬ (Potts.main "potts" ["in.dat", "out.dat", "10"]
              (some "grid:int\n".toList) dim0).failed)
    ∧ Potts.main "potts" ["in.dat", "out.dat", "10"] (some "grid:int\n".toList) 2
        = ⟨[.Init, .ifstream "in.dat" true, .getline, .extract, .close,
            .grid 2 .int "in.dat", .update 2 .int 10, .output 2 .int "out.dat", .Finalize],
            .returned⟩
    ∧ Potts.main "potts" ["in.dat", "out.dat", "10"] (some "grid:int\n".toList) 0
        = ⟨[.Init, .ifstream "in.dat" true, .getline, .extract, .close, .Finalize], .returned⟩
    ∧ dimension "grid:int\nabc\n".toList = .stored 0
    ∧ Potts.main "potts" ["in.dat", "out.dat", "10"] (some "grid:int\nabc\n".toList) 7
        = ⟨[.Init, .ifstream "in.dat" true, .getline, .extract, .close, .Finalize],
            .returned⟩ := by
  refine ⟨by decide, ?_, by decide, by decide, by decide, by decide⟩
  intro dim0
  have hr : Driver.potts.recognises (firstLine "grid:int\n".toList) := by decide
  have hq := run_recognised_quiet .potts "potts" "in.dat" "out.dat" ["10"]
    "grid:int\n".toList dim0 hr
  refine ⟨hq.1, ?_⟩
  rintro ⟨n, hn, hne⟩
  have hs := run_recognised .potts "potts" "in.dat" "out.dat" ["10"] "grid:int\n".toList dim0 hr
  have hst : (Driver.potts.run "potts" ["in.dat", "out.dat", "10"]
      (some "grid:int\n".toList) dim0).status = some 0 := by
    rw [hs]
    split_ifs <;> simp [Run.status]
  have hn2 : (Driver.potts.run "potts" ["in.dat", "out.dat", "10"]
      (some "grid:int\n".toList) dim0).status = some n := hn
  rw [hst] at hn2
  exact hne (Option.some.inj hn2).symm

/-! ## Errors and grid operations -/

/-- C8. Errors are detected at the boundary: for each driver and every input, a
run that ends by `exit` (the usage, file open, non-grid header and unsupported
type errors are the only exits, all with code -1) has no grid operation in
its trace: no grid was constructed, `update` was not called and `output` did
not write the file named by `argv[2]`.  The same holds of every run that
writes anything to standard output or standard error.  Conversely a run with
a grid operation in its trace writes nothing to either stream. -/
theorem errors_precede_grid_operations (d : Driver) (prog : String) (args : List String)
    (input : Option (List Char)) (dim0 : Int) :
    (∀ code, (d.run prog args input dim0).ending = .exited code →
        code = -1 ∧ (d.run prog args input dim0).failed
          ∧ (d.run prog args input dim0).gridOps = [])
    ∧ ((d.run prog args input dim0).stdout ≠ [] ∨ (d.run prog args input dim0).stderr ≠ [] →
        (d.run prog args input dim0).ending = .exited (-1)
          ∧ (d.run prog args input dim0).gridOps = [])
    ∧ ((d.run prog args input dim0).gridOps ≠ [] →
        (d.run prog args input dim0).stderr = []
          ∧ (d.run prog args input dim0).stdout = []) := by
  have hf : ∀ t : List Event, Run.failed ⟨t, .exited (-1)⟩ := fun t => ⟨255, rfl, by decide⟩
  rcases run_shapes d prog args input dim0 with h | ⟨a1, h⟩ | ⟨a1, h⟩ | ⟨a1, h⟩ | ⟨a1, h⟩ |
      ⟨a1, a2, a3, n, h⟩ | ⟨a1, n, h⟩ <;> rw [h] <;>
    simp [hf, Run.gridOps, Run.stdout, Run.stderr, Event.isGridOp, header]

/-- C8, at concrete inputs: the Heisenberg driver on a `grid:int` file ends by
`exit` with no grid operation, and the Potts driver on the same file has grid
operations and writes nothing to standard error. -/
theorem errors_precede_grid_operations_witness :
    ((Heisenberg.main "heisenberg" ["in.dat", "out.dat", "10"]
        (some "grid:int\n2\n4 4\n".toList) 0).ending = .exited (-1)
      ∧ (Heisenberg.main "heisenberg" ["in.dat", "out.dat", "10"]
        (some "grid:int\n2\n4 4\n".toList) 0).gridOps = [])
    ∧ ((Potts.main "potts" ["in.dat", "out.dat", "10"]
        (some "grid:int\n2\n4 4\n".toList) 0).gridOps ≠ []
      ∧ (Potts.main "potts" ["in.dat", "out.dat", "10"]
        (some "grid:int\n2\n4 4\n".toList) 0).stderr = []) :=
  ⟨⟨by decide,
      ((errors_precede_grid_operations .heisenberg "heisenberg" ["in.dat", "out.dat", "10"]
        (some "grid:int\n2\n4 4\n".toList) 0).1 (-1) (by decide)).2.2⟩,
    by decide,
    ((errors_precede_grid_operations .potts "potts" ["in.dat", "out.dat", "10"]
      (some "grid:int\n2\n4 4\n".toList) 0).2.2 (by decide)).1⟩

/-! ## The two drivers compared -/

/-- C9. The type line discriminates the models: no first line is a type line of
both drivers; the Potts driver rejects a file whose first line is
`grid:vector:double` with the unsupported type error, and the Heisenberg
driver rejects a file whose first line is `grid:scalar:int` or `grid:int` in
the same way; and for no state of the input file do both drivers perform a
grid operation, whatever their command lines. -/
theorem type_line_discriminates_models :
    (∀ type : List Char, ¬ (Driver.potts.recognises type ∧ Driver.heisenberg.recognises type))
    ∧ (∀ (prog argv1 argv2 : String) (rest : List String) (bytes : List Char) (dim0 : Int),
        firstLine bytes = "grid:vector:double".toList →
          Potts.main prog (argv1 :: argv2 :: rest) (some bytes) dim0
            = ⟨[.Init, .ifstream argv1 true, .getline, .extract, .close,
                .cerr msgUnsupported], .exited (-1)⟩)
    ∧ (∀ (prog argv1 argv2 : String) (rest : List String) (bytes : List Char) (dim0 : Int),
        firstLine bytes = "grid:scalar:int".toList ∨ firstLine bytes = "grid:int".toList →
          Heisenberg.main prog (argv1 :: argv2 :: rest) (some bytes) dim0
            = ⟨[.Init, .ifstream argv1 true, .getline, .extract, .close,
                .cerr msgUnsupported], .exited (-1)⟩)
    ∧ (∀ (prog1 prog2 : String) (args1 args2 : List String) (input : Option (List Char))
        (dim1 dim2 : Int),
        (Potts.main prog1 args1 input dim1).gridOps = []
          ∨ (Heisenberg.main prog2 args2 input dim2).gridOps = []) := by
  have hex : ∀ type : List Char,
      ¬ (Driver.potts.recognises type ∧ Driver.heisenberg.recognises type) := by
    rintro type ⟨hp, hh⟩
    have hh2 : type = "grid:vector:double".toList := hh
    subst hh2
    exact absurd hp (by decide)
  refine ⟨hex, ?_, ?_, ?_⟩
  · intro prog argv1 argv2 rest bytes dim0 hfl
    have hg : startsWithGrid (firstLine bytes) := by rw [hfl]; decide
    have hr : ¬ Driver.potts.recognises (firstLine bytes) := by rw [hfl]; decide
    exact run_unsupported .potts prog argv1 argv2 rest bytes dim0 hg hr
  · intro prog argv1 argv2 rest bytes dim0 hfl
    have hg : startsWithGrid (firstLine bytes) := by
      rcases hfl with h | h <;> rw [h] <;> decide
    have hr : ¬ Driver.heisenberg.recognises (firstLine bytes) := by
      rcases hfl with h | h <;> rw [h] <;> decide
    exact run_unsupported .heisenberg prog argv1 argv2 rest bytes dim0 hg hr
  · intro prog1 prog2 args1 args2 input dim1 dim2
    by_contra hcon
    rw [not_or] at hcon
    obtain ⟨b1, hb1, hp⟩ := gridOps_recognised .potts prog1 args1 input dim1 hcon.1
    obtain ⟨b2, hb2, hh⟩ := gridOps_recognised .heisenberg prog2 args2 input dim2 hcon.2
    rw [hb1] at hb2
    cases hb2
    exact hex _ ⟨hp, hh⟩

/-- C9, at a concrete input: a `grid:vector:double` file given to the Potts
driver. -/
theorem type_line_discriminates_models_witness :
    firstLine "grid:vector:double\n2\n4 4\n".toList = "grid:vector:double".toList
    ∧ Potts.main "potts" ["in.dat", "out.dat", "10"]
          (some "grid:vector:double\n2\n4 4\n".toList) 0
        = ⟨[.Init, .ifstream "in.dat" true, .getline, .extract, .close,
            .cerr msgUnsupported], .exited (-1)⟩ :=
  ⟨by decide,
    type_line_discriminates_models.2.1 "potts" "in.dat" "out.dat" ["10"]
      "grid:vector:double\n2\n4 4\n".toList 0 (by decide)⟩

/-- C10. Off the three type lines the two drivers agree: for every command line
and every state of the input file (not opened because arguments are missing,
not openable, or opened) such that the first line of an opened file is none
of `grid:int`, `grid:scalar:int` and `grid:vector:double`, the Potts driver
and the Heisenberg driver produce the same run: the same events, hence the
same text on the same stream, and the same ending.  That ending is
`exit(-1)`, exit status 255, and the run has no grid operation. -/
theorem drivers_agree_off_type_lines (prog : String) (args : List String)
    (input : Option (List Char)) (dim0 : Int)
    (h : ∀ bytes, input = some bytes →
      firstLine bytes ≠ "grid:int".toList ∧ firstLine bytes ≠ "grid:scalar:int".toList
        ∧ firstLine bytes ≠ "grid:vector:double".toList) :
    Potts.main prog args input dim0 = Heisenberg.main prog args input dim0
    ∧ (Potts.main prog args input dim0).ending = .exited (-1)
    ∧ (Potts.main prog args input dim0).status = some 255
    ∧ (Potts.main prog args input dim0).failed
    ∧ (Potts.main prog args input dim0).gridOps = []
    ∧ ((Potts.main prog args input dim0).stdout ≠ []
        ∨ (Potts.main prog args input dim0).stderr ≠ []) := by
  have hf : ∀ t : List Event, Run.failed ⟨t, .exited (-1)⟩ := fun t => ⟨255, rfl, by decide⟩
  match args with
  | [] =>
    have hp := run_usage .potts prog [] input dim0 (by simp)
    have hh := run_usage .heisenberg prog [] input dim0 (by simp)
    simp only [Driver.run] at hp hh
    rw [hh, hp]
    simp [hf, Run.status, Run.gridOps, Run.stdout, Event.isGridOp]
  | [a] =>
    have hp := run_usage .potts prog [a] input dim0 (by simp)
    have hh := run_usage .heisenberg prog [a] input dim0 (by simp)
    simp only [Driver.run] at hp hh
    rw [hh, hp]
    simp [hf, Run.status, Run.gridOps, Run.stdout, Event.isGridOp]
  | a1 :: a2 :: rest =>
    cases input with
    | none =>
      have hp := run_open_failed .potts prog a1 a2 rest dim0
      have hh := run_open_failed .heisenberg prog a1 a2 rest dim0
      simp only [Driver.run] at hp hh
      rw [hh, hp]
      simp [hf, Run.status, Run.gridOps, Run.stderr, Event.isGridOp]
    | some bytes =>
      obtain ⟨h1, h2, h3⟩ := h bytes rfl
      by_cases hg : startsWithGrid (firstLine bytes)
      · have hrp : ¬ Driver.potts.recognises (firstLine bytes) := by
          rintro (hx | hx)
          · exact h2 hx
          · exact h1 hx
        have hrh : ¬ Driver.heisenberg.recognises (firstLine bytes) := h3
        have hp := run_unsupported .potts prog a1 a2 rest bytes dim0 hg hrp
        have hh := run_unsupported .heisenberg prog a1 a2 rest bytes dim0 hg hrh
        simp only [Driver.run] at hp hh
        rw [hh, hp]
        simp [hf, Run.status, Run.gridOps, Run.stderr, Event.isGridOp, header]
      · have hp := run_not_grid .potts prog a1 a2 rest bytes dim0 hg
        have hh := run_not_grid .heisenberg prog a1 a2 rest bytes dim0 hg
        simp only [Driver.run] at hp hh
        rw [hh, hp]
        simp [hf, Run.status, Run.gridOps, Run.stderr, Event.isGridOp]

/-- C10, at a concrete input: both drivers on a `grid:scalar:double` file. -/
theorem drivers_agree_off_type_lines_witness :
    Potts.main "mc" ["in.dat", "out.dat", "10"] (some "grid:scalar:double\n2\n4 4\n".toList) 0
      = Heisenberg.main "mc" ["in.dat", "out.dat", "10"]
          (some "grid:scalar:double\n2\n4 4\n".toList) 0
    ∧ (Potts.main "mc" ["in.dat", "out.dat", "10"]
        (some "grid:scalar:double\n2\n4 4\n".toList) 0).status = some 255 :=
  have hw := drivers_agree_off_type_lines "mc" ["in.dat", "out.dat", "10"]
    (some "grid:scalar:double\n2\n4 4\n".toList) 0
    (by
      intro bytes hb
      cases hb
      decide)
  ⟨hw.1, hw.2.2.1⟩
